import Mathlib

/-!
Shallow embedding of the calculator computation engine of the
semiconductor-reliability web application: the input validator
(`backend/app/calculators/base.py`), the MTBF calculator
(`backend/app/calculators/mtbf.py`), the Duane reliability-growth
calculator (`backend/app/calculators/duanemodel.py`) and the
test-sample-size calculator (`backend/app/calculators/test_sample_size.py`).

Conventions of the embedding:
* Python floats are idealised as exact rationals (`ℚ`); where the code
  applies transcendental functions (`math.log`, `math.exp`,
  `scipy.stats.chi2.ppf`) the embedding either moves to `ℝ` with the
  exact real function, or abstracts the library routine as a function
  parameter, as noted at each definition.
* `float('inf')` is modelled by an explicit `PyF.inf` constructor.
* Python's `round(x, d)` (round half to even at `d` decimal digits) is
  `pyRound x d`.
* Raised exceptions (`ValueError`, `KeyError`, `ZeroDivisionError`)
  become `Except CalcError` results.
* Purely presentational f-string fields (`description` texts) are not
  carried in the result records; every numeric, enum and structural
  output key of the Python result dictionaries is.
-/

/-- Round half to even to an integer, as Python's builtin `round` does
on exact values. -/
def roundHalfEven {α : Type} [LinearOrderedField α] [FloorRing α] (x : α) : ℤ :=
  let f : ℤ := ⌊x⌋
  let r : α := x - (f : α)
  if r < 1/2 then f
  else if 1/2 < r then f + 1
  else if f % 2 = 0 then f else f + 1

/-- Python's `round(x, d)`: round half to even at `d` decimal places. -/
def pyRound {α : Type} [LinearOrderedField α] [FloorRing α] (x : α) (d : ℕ) : α :=
  (roundHalfEven (x * 10 ^ d) : α) / 10 ^ d

/-- A Python float value that may be the special value `float('inf')`. -/
inductive PyF (α : Type) : Type
  | fin (x : α)
  | inf
deriving DecidableEq

/-- Divide a possibly-infinite float by a (positive) finite constant,
as in `mtbf_years = mtbf_hours / (365.25 * 24)`. -/
def PyF.divC {α : Type} [DivisionRing α] : PyF α → α → PyF α
  | .fin x, c => .fin (x / c)
  | .inf, _ => .inf

/-- `round(x, d)` applied to a possibly-infinite float
(`round(float('inf'), 2)` is `inf` in Python). -/
def PyF.round {α : Type} [LinearOrderedField α] [FloorRing α] : PyF α → ℕ → PyF α
  | .fin x, d => .fin (pyRound x d)
  | .inf, _ => .inf

/-- Exceptions raised by the calculator code. -/
inductive CalcError : Type
  | valueError (msg : String)
  | keyError (key : String)
  | zeroDivision
deriving DecidableEq

/-! ### Raw request values and validated values

`base.py` receives a `Dict[str, Any]` of raw inputs.  The values that
reach the validator are JSON scalars: numbers, strings and booleans. -/

/-- A raw input value as received by `BaseCalculator.validate_inputs`. -/
inductive RawValue : Type
  | num (q : ℚ)
  | str (s : String)
  | boolv (b : Bool)
deriving DecidableEq

/-- A coerced value as stored in the validated-inputs dictionary. -/
inductive Value : Type
  | vfloat (q : ℚ)
  | vint (n : ℤ)
  | vbool (b : Bool)
  | vstr (s : String)
deriving DecidableEq

/-- The field types appearing in `InputField.type`. -/
inductive FType : Type
  | ffloat
  | fint
  | fbool
  | fselect
  | ftext
deriving DecidableEq

/-- One `InputField` declaration: name, label, type, required flag,
optional numeric bounds and the allowed options of a select field. -/
structure FieldSpec : Type where
  name : String
  label : String
  ftype : FType
  required : Bool
  min_value : Option ℚ := none
  max_value : Option ℚ := none
  options : List String := []
deriving DecidableEq

/-- Strip leading and trailing whitespace from a character list
(Python's `str.strip()` / the whitespace tolerance of `float()`). -/
def trimList (cs : List Char) : List Char :=
  ((cs.dropWhile Char.isWhitespace).reverse.dropWhile Char.isWhitespace).reverse

/-- Decimal-literal parser modelling Python's `float(string)` on the
plain forms `[+-]digits`, `[+-]digits.digits`, `[+-].digits`,
`[+-]digits.` (exponent, `inf`/`nan` and underscore forms are outside
the model).  `float` also ignores surrounding whitespace. -/
def parseFloatQ (s : String) : Option ℚ :=
  let cs := trimList s.data
  let signAndRest : ℚ × List Char :=
    match cs with
    | '-' :: r => (-1, r)
    | '+' :: r => (1, r)
    | r => (1, r)
  let sign := signAndRest.1
  let rest := signAndRest.2
  let intPart := rest.takeWhile (fun c => c ≠ '.')
  let tail := rest.dropWhile (fun c => c ≠ '.')
  let digitsVal : List Char → ℚ := fun l => ((l.foldl (fun n c => n * 10 + (c.toNat - 48)) 0 : ℕ) : ℚ)
  match tail with
  | [] =>
    if rest ≠ [] ∧ rest.all Char.isDigit then some (sign * digitsVal rest) else none
  | _ :: frac =>
    if (intPart ≠ [] ∨ frac ≠ []) ∧ intPart.all Char.isDigit ∧ frac.all Char.isDigit then
      some (sign * (digitsVal intPart + digitsVal frac / 10 ^ frac.length))
    else none

/-- Integer-literal parser modelling Python's `int(string)`:
`[+-]digits` only (`int("3.5")` raises). -/
def parseIntZ (s : String) : Option ℤ :=
  let cs := trimList s.data
  let signAndRest : ℤ × List Char :=
    match cs with
    | '-' :: r => (-1, r)
    | '+' :: r => (1, r)
    | r => (1, r)
  if signAndRest.2 ≠ [] ∧ signAndRest.2.all Char.isDigit then
    some (signAndRest.1 * ((signAndRest.2.foldl (fun n c => n * 10 + (c.toNat - 48)) 0 : ℕ) : ℤ))
  else none

/-- Truncation toward zero, the behaviour of Python's `int(float)`. -/
def truncQ (q : ℚ) : ℤ := if 0 ≤ q then ⌊q⌋ else ⌈q⌉

/-- Python's `float(value)` on a raw value (`float(True) == 1.0`). -/
def pyFloatOf : RawValue → Option ℚ
  | .num q => some q
  | .str s => parseFloatQ s
  | .boolv b => some (if b then 1 else 0)

/-- Python's `int(value)` on a raw value. -/
def pyIntOf : RawValue → Option ℤ
  | .num q => some (truncQ q)
  | .str s => parseIntZ s
  | .boolv b => some (if b then 1 else 0)

/-- Python's `bool(value)` on a raw value (never raises). -/
def pyBoolOf : RawValue → Bool
  | .num q => q ≠ 0
  | .str s => s ≠ ""
  | .boolv b => b

/-- A raw value stored unchanged (the `text` field type hits no
coercion branch, so the raw value goes into the validated dict). -/
def rawToValue : RawValue → Value
  | .num q => .vfloat q
  | .str s => .vstr s
  | .boolv b => .vbool b

/-- The test `value is None or value == ""` used for both the
required-field check and the optional-field skip. -/
def isMissing : Option RawValue → Bool
  | none => true
  | some (.str s) => s = ""
  | some _ => false

/-- Outcome of processing one field in the `validate_inputs` loop:
skipped (absent optional field), an error message appended to
`errors`, or a coerced value stored in `validated`. -/
inductive FieldOutcome : Type
  | skip
  | err (msg : String)
  | ok (v : Value)
deriving DecidableEq

/-- The body of the `for field in self.info.input_fields` loop of
`BaseCalculator.validate_inputs`, for a single field. -/
def validateField (f : FieldSpec) (raw : Option RawValue) : FieldOutcome :=
  if isMissing raw then
    if f.required then .err (f.label ++ " is required") else .skip
  else
    match raw with
    | none => .skip
    | some v =>
      let rangeChecked : ℚ → FieldOutcome := fun q =>
        match f.min_value with
        | some lo =>
          if q < lo then .err (f.label ++ " must be >= " ++ toString lo)
          else
            match f.max_value with
            | some hi => if hi < q then .err (f.label ++ " must be <= " ++ toString hi) else .ok (.vfloat q)
            | none => .ok (.vfloat q)
        | none =>
          match f.max_value with
          | some hi => if hi < q then .err (f.label ++ " must be <= " ++ toString hi) else .ok (.vfloat q)
          | none => .ok (.vfloat q)
      match f.ftype with
      | .ffloat =>
        match pyFloatOf v with
        | none => .err (f.label ++ " must be a valid float")
        | some q => rangeChecked q
      | .fint =>
        match pyIntOf v with
        | none => .err (f.label ++ " must be a valid int")
        | some n =>
          match rangeChecked (n : ℚ) with
          | .ok _ => .ok (.vint n)
          | out => out
      | .fbool => .ok (.vbool (pyBoolOf v))
      | .fselect =>
        match v with
        | .str s =>
          if s ∈ f.options then .ok (.vstr s)
          else .err (f.label ++ " must be one of: " ++ String.intercalate ", " f.options)
        | _ => .err (f.label ++ " must be one of: " ++ String.intercalate ", " f.options)
      | .ftext => .ok (rawToValue v)

/-- Accumulating pass of the validation loop, mirroring the mutable
`validated` dict and `errors` list of the Python code. -/
def validateLoop (fields : List FieldSpec) (raw : String → Option RawValue)
    (validated : List (String × Value)) (errors : List String) :
    List (String × Value) × List String :=
  match fields with
  | [] => (validated, errors)
  | f :: rest =>
    match validateField f (raw f.name) with
    | .skip => validateLoop rest raw validated errors
    | .err m => validateLoop rest raw validated (errors ++ [m])
    | .ok v => validateLoop rest raw (validated ++ [(f.name, v)]) errors

/-- `BaseCalculator.validate_inputs`: run the loop over all fields; if
any errors were collected raise `ValueError("; ".join(errors))`, else
return the validated dict. -/
def validate_inputs (fields : List FieldSpec) (raw : String → Option RawValue) :
    Except String (List (String × Value)) :=
  let out := validateLoop fields raw [] []
  if out.2 = [] then .ok out.1 else .error (String.intercalate "; " out.2)

/-! Declarative (non-accumulating) descriptions of what the loop
collects, used to state the validator claims. -/

/-- All error messages the loop records, in field-declaration order. -/
def fieldErrors (fields : List FieldSpec) (raw : String → Option RawValue) : List String :=
  fields.filterMap fun f =>
    match validateField f (raw f.name) with
    | .err m => some m
    | _ => none

/-- All coerced name-value pairs the loop stores, in field-declaration
order. -/
def fieldValues (fields : List FieldSpec) (raw : String → Option RawValue) : List (String × Value) :=
  fields.filterMap fun f =>
    match validateField f (raw f.name) with
    | .ok v => some (f.name, v)
    | _ => none

/-! ### MTBF calculator (`backend/app/calculators/mtbf.py`)

`scipy.stats.chi2.ppf` is abstracted as a function parameter
`chi2 : ℚ → ℕ → ℚ` (quantile `p`, degrees of freedom `df`), and
`math.exp` as `mexp : ℚ → ℚ`; every theorem below holds for all
instantiations of these external library routines. -/

/-- Mistyped arithmetic (e.g. `1 / value` on a non-number) would raise
`TypeError`; the embedding needs it only for totality. -/
def typeErrorMsg : String := "unsupported operand type(s)"

/-- The `input_fields` of `MTBFCalculator.info`. -/
def mtbfFields : List FieldSpec :=
  [ { name := "failure_rate", label := "Failure Rate (λ)", ftype := .ffloat,
      required := true, min_value := some 0 },
    { name := "operating_hours", label := "Operating Hours", ftype := .ffloat,
      required := false, min_value := some 0 },
    { name := "confidence_level", label := "Confidence Level", ftype := .fselect,
      required := true, options := ["90", "95", "99"] },
    { name := "num_failures", label := "Number of Failures", ftype := .fint,
      required := false, min_value := some 0, max_value := some 1000 },
    { name := "test_time", label := "Total Test Time", ftype := .ffloat,
      required := false, min_value := some 0 } ]

/-- Read a float entry of the validated dict (`validated_inputs.get(k)`). -/
def getFloat? (v : Option Value) : Option ℚ :=
  match v with
  | some (.vfloat q) => some q
  | _ => none

/-- Read an int entry of the validated dict. -/
def getInt? (v : Option Value) : Option ℤ :=
  match v with
  | some (.vint n) => some n
  | _ => none

/-- Python's `int(value)` on an already-coerced value. -/
def pyIntOfValue : Value → Option ℤ
  | .vfloat q => some (truncQ q)
  | .vint n => some n
  | .vbool b => some (if b then 1 else 0)
  | .vstr s => parseIntZ s

/-- The `"precise_analysis"` payload built by
`_precise_confidence_interval_from_test_data` (values rounded exactly
as the code rounds them; the `"∞"` placeholder string of the JSON
serialisation is the `PyF.inf` value here). -/
structure PreciseAnalysis : Type where
  failures : ℤ
  test_time : ℚ
  observed_mtbf : PyF ℚ
  observed_failure_rate : ℚ
  mtbf_ci_lower : ℚ
  mtbf_ci_upper : PyF ℚ
  fr_ci_lower : ℚ
  fr_ci_upper : ℚ
deriving DecidableEq

/-- The `"approximate_analysis"` payload built by
`_confidence_interval_from_failure_rate`. -/
structure ApproxAnalysis : Type where
  note : String
  mtbf_ci_lower : ℚ
  mtbf_ci_upper : ℚ
  fr_ci_lower : ℚ
  fr_ci_upper : ℚ
deriving DecidableEq

/-- Which confidence-interval enrichment the result carries: the exact
chi-square branch, the approximate branch, or none (`{}`). -/
inductive ConfAnalysis : Type
  | precise (pa : PreciseAnalysis)
  | approx (aa : ApproxAnalysis)
  | nothing
deriving DecidableEq

/-- The result dictionary of `MTBFCalculator.calculate`.  The
reliability block (present only when `operating_hours` was given) is
`(reliability, unreliability, reliability_percent, operating_hours)`. -/
structure MTBFResults : Type where
  mtbf_hours : PyF ℚ
  mtbf_years : PyF ℚ
  failure_rate : ℚ
  confidence_level : ℕ
  reliability : Option (ℚ × ℚ × ℚ × ℚ)
  analysis : ConfAnalysis
deriving DecidableEq

/-- `_precise_confidence_interval_from_test_data`. -/
def preciseFromTestData (chi2 : ℚ → ℕ → ℚ) (num_failures : ℤ) (test_time : ℚ)
    (confidence_level : ℕ) : PreciseAnalysis :=
  let alpha : ℚ := (100 - (confidence_level : ℚ)) / 100
  let bounds : ℚ × PyF ℚ × ℚ × ℚ :=
    if num_failures = 0 then
      let chi2_upper := chi2 (1 - alpha / 2) 2
      (2 * test_time / chi2_upper, .inf, 0, chi2_upper / (2 * test_time))
    else
      let df := (2 * num_failures).toNat
      let chi2_lower := chi2 (alpha / 2) df
      let chi2_upper := chi2 (1 - alpha / 2) df
      (2 * test_time / chi2_upper, .fin (2 * test_time / chi2_lower),
        chi2_lower / (2 * test_time), chi2_upper / (2 * test_time))
  let observed_mtbf : PyF ℚ := if 0 < num_failures then .fin (test_time / (num_failures : ℚ)) else .inf
  let observed_failure_rate : ℚ := if 0 < num_failures then (num_failures : ℚ) / test_time else 0
  { failures := num_failures
    test_time := test_time
    observed_mtbf := observed_mtbf.round 2
    observed_failure_rate := pyRound observed_failure_rate 8
    mtbf_ci_lower := pyRound bounds.1 2
    mtbf_ci_upper := bounds.2.1.round 2
    fr_ci_lower := pyRound bounds.2.2.1 8
    fr_ci_upper := pyRound bounds.2.2.2 8 }

/-- The `z_values` dictionary of
`_confidence_interval_from_failure_rate` (its value is looked up but
unused; an unknown key would raise `KeyError`). -/
def zValues (confidence_level : ℕ) : Option ℚ :=
  if confidence_level = 90 then some 1.645
  else if confidence_level = 95 then some 1.96
  else if confidence_level = 99 then some 2.576
  else none

/-- The fixed `note` text of the approximate branch. -/
def mtbfApproxNote : String :=
  "Approximate confidence intervals (assuming ~10 failures observed)"

/-- `_confidence_interval_from_failure_rate` (approximate branch,
`assumed_failures = 10`, `df = 20`). -/
def approxFromRate (chi2 : ℚ → ℕ → ℚ) (failure_rate : ℚ) (confidence_level : ℕ) :
    Except CalcError ApproxAnalysis :=
  let mtbf := 1 / failure_rate
  let alpha : ℚ := (100 - (confidence_level : ℚ)) / 100
  match zValues confidence_level with
  | none => .error (.keyError (toString confidence_level))
  | some _ =>
    let df : ℚ := 20
    let chi2_lower := chi2 (alpha / 2) 20
    let chi2_upper := chi2 (1 - alpha / 2) 20
    let mtbf_lower := mtbf * df / chi2_upper
    let mtbf_upper := mtbf * df / chi2_lower
    .ok
      { note := mtbfApproxNote
        mtbf_ci_lower := pyRound mtbf_lower 2
        mtbf_ci_upper := pyRound mtbf_upper 2
        fr_ci_lower := pyRound (1 / mtbf_upper) 8
        fr_ci_upper := pyRound (1 / mtbf_lower) 8 }

/-- `_calculate_precise_confidence_intervals`: the branch selection
between the exact test-data method, the approximate
failure-rate-only method, and no enrichment. -/
def mtbfConfIntervals (chi2 : ℚ → ℕ → ℚ) (failure_rate : ℚ) (confidence_level : ℕ)
    (num_failures : Option ℤ) (test_time : Option ℚ) : Except CalcError ConfAnalysis :=
  match num_failures, test_time with
  | some r, some T =>
    if 0 < T then .ok (.precise (preciseFromTestData chi2 r T confidence_level))
    else if 0 < failure_rate then (approxFromRate chi2 failure_rate confidence_level).map .approx
    else .ok .nothing
  | _, _ =>
    if 0 < failure_rate then (approxFromRate chi2 failure_rate confidence_level).map .approx
    else .ok .nothing

/-- The body of `MTBFCalculator.calculate` after `validate_inputs`. -/
def mtbfCompute (chi2 : ℚ → ℕ → ℚ) (mexp : ℚ → ℚ) (validated : List (String × Value)) :
    Except CalcError MTBFResults :=
  match validated.lookup "failure_rate" with
  | none => .error (.keyError "failure_rate")
  | some (.vstr _) => .error (.valueError typeErrorMsg)
  | some (.vbool _) => .error (.valueError typeErrorMsg)
  | some (.vint _) => .error (.valueError typeErrorMsg)
  | some (.vfloat failure_rate) =>
    let operating_hours := getFloat? (validated.lookup "operating_hours")
    match validated.lookup "confidence_level" with
    | none => .error (.keyError "confidence_level")
    | some clv =>
      match pyIntOfValue clv with
      | none => .error (.valueError "invalid literal for int() with base 10")
      | some clz =>
        let confidence_level : ℕ := clz.toNat
        let num_failures := getInt? (validated.lookup "num_failures")
        let test_time := getFloat? (validated.lookup "test_time")
        let mtbf_hours : PyF ℚ := if 0 < failure_rate then .fin (1 / failure_rate) else .inf
        let mtbf_years := mtbf_hours.divC (365.25 * 24)
        let reliability := operating_hours.map fun oh =>
          let rel := mexp (-failure_rate * oh)
          (pyRound rel 6, pyRound (1 - rel) 6, pyRound (rel * 100) 4, oh)
        (mtbfConfIntervals chi2 failure_rate confidence_level num_failures test_time).map
          fun analysis =>
            { mtbf_hours := mtbf_hours.round 2
              mtbf_years := mtbf_years.round 4
              failure_rate := failure_rate
              confidence_level := confidence_level
              reliability := reliability
              analysis := analysis }

/-- `MTBFCalculator.calculate`: validation (raising `ValueError` on
collected messages) followed by the computation. -/
def mtbfCalculate (chi2 : ℚ → ℕ → ℚ) (mexp : ℚ → ℚ) (raw : String → Option RawValue) :
    Except CalcError MTBFResults :=
  match validate_inputs mtbfFields raw with
  | .error msg => .error (.valueError msg)
  | .ok validated => mtbfCompute chi2 mexp validated

/-! ### Validator claims -/

/-- The accumulating loop appends exactly the declaratively-described
error messages and stored values, in declaration order. -/
theorem validateLoop_eq (fields : List FieldSpec) (raw : String → Option RawValue) :
    ∀ acc errs, validateLoop fields raw acc errs =
      (acc ++ fieldValues fields raw, errs ++ fieldErrors fields raw) := by
  induction fields with
  | nil => intro acc errs; simp [validateLoop, fieldValues, fieldErrors]
  | cons f rest ih =>
    intro acc errs
    cases h : validateField f (raw f.name) with
    | skip => simp [validateLoop, fieldValues, fieldErrors, h, ih]
    | err m => simp [validateLoop, fieldValues, fieldErrors, h, ih]
    | ok v => simp [validateLoop, fieldValues, fieldErrors, h, ih]

/-- C4: for every field list and raw mapping, the validator iterates
the fields in declaration order collecting every violation (missing
required field, coercion failure, enum mismatch, range violation —
`fieldErrors` lists one message per violating field, over all fields,
so it does not fail fast); if any errors were collected it fails with
the collected messages joined by `"; "`, and otherwise it returns
exactly the coerced values of the fields that were present and valid
(`fieldValues`; an absent optional field yields the `skip` outcome and
thus no entry and no default). -/
theorem validator_collects_all_errors (fields : List FieldSpec) (raw : String → Option RawValue) :
    validate_inputs fields raw =
      if fieldErrors fields raw = [] then .ok (fieldValues fields raw)
      else .error (String.intercalate "; " (fieldErrors fields raw)) := by
  unfold validate_inputs
  rw [validateLoop_eq]
  simp

/-! ### MTBF claims -/

/-- Scenario A raw request: `{failure_rate: 0.0001, confidence_level: "95"}`. -/
def rawScenarioA : String → Option RawValue := fun k =>
  if k = "failure_rate" then some (.num (1 / 10000))
  else if k = "confidence_level" then some (.str "95")
  else none

/-- Raw request with `failure_rate = 3`. -/
def rawFR3 : String → Option RawValue := fun k =>
  if k = "failure_rate" then some (.num 3)
  else if k = "confidence_level" then some (.str "95")
  else none

/-- Raw request with `failure_rate = 0`. -/
def rawFR0 : String → Option RawValue := fun k =>
  if k = "failure_rate" then some (.num 0)
  else if k = "confidence_level" then some (.str "95")
  else none

/-- `int("95")` evaluates to `95`. -/
theorem parseIntZ_95 : parseIntZ "95" = some 95 := by decide

/-- C1 (amended): for every validated input with `failureRate > 0` the
returned `mtbf_hours` is `1/failureRate` rounded to 2 decimal places
(`round(mtbf_hours, 2)` in the code) and `mtbf_years` is
`(1/failureRate)/(365.25*24)` rounded to 4 decimal places; in
particular scenario A (`failureRate = 0.0001`, confidence `"95"`)
returns `mtbf_hours = 10000.0` and `mtbf_years = 1.1408` exactly
(which is within `1e-3` of the claimed `1.1408`). -/
theorem mtbf_hours_years_rounded :
    (∀ (chi2 : ℚ → ℕ → ℚ) (mexp : ℚ → ℚ) (validated : List (String × Value)) (fr : ℚ)
        (r : MTBFResults),
        validated.lookup "failure_rate" = some (.vfloat fr) → 0 < fr →
        mtbfCompute chi2 mexp validated = .ok r →
        r.mtbf_hours = .fin (pyRound (1 / fr) 2) ∧
          r.mtbf_years = .fin (pyRound (1 / fr / (365.25 * 24)) 4)) ∧
    (∀ chi2 mexp,
        (mtbfCalculate chi2 mexp rawScenarioA).map (fun r => (r.mtbf_hours, r.mtbf_years)) =
          .ok (.fin 10000, .fin 1.1408)) := by
  constructor
  · intro chi2 mexp validated fr r hfr hpos hok
    simp only [mtbfCompute, hfr] at hok
    rcases hcl : validated.lookup "confidence_level" with _ | clv
    · simp only [hcl] at hok; exact absurd hok (by simp)
    simp only [hcl] at hok
    rcases hpi : pyIntOfValue clv with _ | clz
    · simp only [hpi] at hok; exact absurd hok (by simp)
    simp only [hpi] at hok
    rcases hci : mtbfConfIntervals chi2 fr clz.toNat
        (getInt? (validated.lookup "num_failures"))
        (getFloat? (validated.lookup "test_time")) with e | a
    · simp only [hci, Except.map] at hok; exact absurd hok (by simp)
    simp only [hci, Except.map, Except.ok.injEq] at hok
    subst hok
    simp [if_pos hpos, PyF.round, PyF.divC]
  · intro chi2 mexp
    have hval : validate_inputs mtbfFields rawScenarioA =
        .ok [("failure_rate", .vfloat (1 / 10000)), ("confidence_level", .vstr "95")] := by
      simp [validate_inputs, validateLoop, validateField, mtbfFields, rawScenarioA,
        isMissing, pyFloatOf]
      norm_num
    rw [mtbfCalculate, hval]
    simp [mtbfCompute, List.lookup, getFloat?, getInt?, pyIntOfValue, parseIntZ_95,
      mtbfConfIntervals, approxFromRate, zValues, Except.map, PyF.round, PyF.divC]
    norm_num [pyRound, roundHalfEven]

/-- C1 counterexample: for the valid input `failure_rate = 3` the
calculator returns `mtbf_hours = round(1/3, 2) = 0.33`, which is not
within `1e-9` relative tolerance of `1/3`. -/
theorem mtbf_hours_not_exact_counterexample :
    (mtbfCalculate (fun _ _ => 7) (fun _ => 1) rawFR3).map (fun r => r.mtbf_hours) =
      .ok (.fin (33 / 100)) ∧
    ¬ |(33 : ℚ) / 100 - 1 / 3| ≤ 1 / 10 ^ 9 * ((1 : ℚ) / 3) := by
  constructor
  · have hval : validate_inputs mtbfFields rawFR3 =
        .ok [("failure_rate", .vfloat 3), ("confidence_level", .vstr "95")] := by
      simp [validate_inputs, validateLoop, validateField, mtbfFields, rawFR3,
        isMissing, pyFloatOf]
      norm_num
    rw [mtbfCalculate, hval]
    simp [mtbfCompute, List.lookup, getFloat?, getInt?, pyIntOfValue, parseIntZ_95,
      mtbfConfIntervals, approxFromRate, zValues, Except.map, PyF.round, PyF.divC]
    norm_num [pyRound, roundHalfEven]
  · intro h
    rw [abs_le] at h
    norm_num at h

/-- The success record the calculator returns for
`{failure_rate: 0, confidence_level: "95"}`. -/
def mtbfZeroRecord : MTBFResults :=
  { mtbf_hours := .inf
    mtbf_years := .inf
    failure_rate := 0
    confidence_level := 95
    reliability := none
    analysis := .nothing }

/-- C5 counterexample: `failure_rate = 0` passes validation (the
`min_value = 0` bound is inclusive) and the computation returns a
numeric success result with `mtbf_hours = float('inf')` — it does not
fail with a "failure rate must be positive" domain error (no such
error exists in the code). -/
theorem mtbf_zero_no_domain_error_counterexample :
    mtbfCalculate (fun _ _ => 7) (fun _ => 1) rawFR0 = .ok mtbfZeroRecord := by
  have hval : validate_inputs mtbfFields rawFR0 =
      .ok [("failure_rate", .vfloat 0), ("confidence_level", .vstr "95")] := by
    simp [validate_inputs, validateLoop, validateField, mtbfFields, rawFR0,
      isMissing, pyFloatOf]
  rw [mtbfCalculate, hval]
  simp [mtbfCompute, List.lookup, getFloat?, getInt?, pyIntOfValue, parseIntZ_95,
    mtbfConfIntervals, Except.map, PyF.round, PyF.divC, mtbfZeroRecord]

/-- C5 (amended): whenever a non-positive `failure_rate` reaches the
computation (the validator admits exactly `failure_rate = 0` among
non-positive values) and the computation returns a result, that result
has `mtbf_hours = mtbf_years = +infinity`; no "failure rate must be
positive" error is ever raised, and the `failure_rate = 0` request in
particular yields the full success record `mtbfZeroRecord`. -/
theorem mtbf_nonpositive_rate_returns_inf :
    (∀ (chi2 : ℚ → ℕ → ℚ) (mexp : ℚ → ℚ) (validated : List (String × Value)) (fr : ℚ)
        (r : MTBFResults),
        validated.lookup "failure_rate" = some (.vfloat fr) → fr ≤ 0 →
        mtbfCompute chi2 mexp validated = .ok r →
        r.mtbf_hours = .inf ∧ r.mtbf_years = .inf) ∧
    (∀ mexp, mtbfCalculate (fun _ _ => 7) mexp rawFR0 = .ok mtbfZeroRecord) := by
  constructor
  · intro chi2 mexp validated fr r hfr hnpos hok
    simp only [mtbfCompute, hfr] at hok
    rcases hcl : validated.lookup "confidence_level" with _ | clv
    · simp only [hcl] at hok; exact absurd hok (by simp)
    simp only [hcl] at hok
    rcases hpi : pyIntOfValue clv with _ | clz
    · simp only [hpi] at hok; exact absurd hok (by simp)
    simp only [hpi] at hok
    rcases hci : mtbfConfIntervals chi2 fr clz.toNat
        (getInt? (validated.lookup "num_failures"))
        (getFloat? (validated.lookup "test_time")) with e | a
    · simp only [hci, Except.map] at hok; exact absurd hok (by simp)
    simp only [hci, Except.map, Except.ok.injEq] at hok
    subst hok
    have hlt : ¬ (0 < fr) := not_lt.mpr hnpos
    simp [hlt, PyF.round, PyF.divC]
  · intro mexp
    have hval : validate_inputs mtbfFields rawFR0 =
        .ok [("failure_rate", .vfloat 0), ("confidence_level", .vstr "95")] := by
      simp [validate_inputs, validateLoop, validateField, mtbfFields, rawFR0,
        isMissing, pyFloatOf]
    rw [mtbfCalculate, hval]
    simp [mtbfCompute, List.lookup, getFloat?, getInt?, pyIntOfValue, parseIntZ_95,
      mtbfConfIntervals, Except.map, PyF.round, PyF.divC, mtbfZeroRecord]

/-- The success record the computation produces for the validated
inputs `failure_rate = 2`, `confidence_level = "95"` under the dummy
instantiation `chi2 = fun _ _ => 7`. -/
def mtbfTwoRecord : MTBFResults :=
  { mtbf_hours := .fin (pyRound (1 / 2) 2)
    mtbf_years := .fin (pyRound (1 / 2 / (365.25 * 24)) 4)
    failure_rate := 2
    confidence_level := 95
    reliability := none
    analysis := .approx
      { note := mtbfApproxNote
        mtbf_ci_lower := pyRound (1 / 2 * 20 / 7) 2
        mtbf_ci_upper := pyRound (1 / 2 * 20 / 7) 2
        fr_ci_lower := pyRound (1 / (1 / 2 * 20 / 7)) 8
        fr_ci_upper := pyRound (1 / (1 / 2 * 20 / 7)) 8 } }

/-- Closed witness for the universally-quantified part of the C1
theorem, at validated inputs with `failure_rate = 2`. -/
theorem mtbf_hours_years_rounded_witness :
    mtbfTwoRecord.mtbf_hours = .fin (pyRound ((1 : ℚ) / 2) 2) ∧
      mtbfTwoRecord.mtbf_years = .fin (pyRound ((1 : ℚ) / 2 / (365.25 * 24)) 4) :=
  mtbf_hours_years_rounded.1 (fun _ _ => 7) (fun _ => 1)
    [("failure_rate", .vfloat 2), ("confidence_level", .vstr "95")] 2 mtbfTwoRecord
    rfl (by norm_num)
    (by
      simp [mtbfCompute, List.lookup, getFloat?, getInt?, pyIntOfValue, parseIntZ_95,
        mtbfConfIntervals, approxFromRate, zValues, Except.map, PyF.round, PyF.divC,
        mtbfTwoRecord])

/-- Closed witness for the universally-quantified part of the C5
theorem, at validated inputs with `failure_rate = 0`. -/
theorem mtbf_nonpositive_rate_returns_inf_witness :
    mtbfZeroRecord.mtbf_hours = .inf ∧ mtbfZeroRecord.mtbf_years = .inf :=
  mtbf_nonpositive_rate_returns_inf.1 (fun _ _ => 7) (fun _ => 1)
    [("failure_rate", .vfloat 0), ("confidence_level", .vstr "95")] 0 mtbfZeroRecord
    rfl (by norm_num)
    (by
      simp [mtbfCompute, List.lookup, getFloat?, getInt?, pyIntOfValue, parseIntZ_95,
        mtbfConfIntervals, Except.map, PyF.round, PyF.divC, mtbfZeroRecord])

/-! ### Test-sample-size calculator
(`backend/app/calculators/test_sample_size.py`)

`math.log` is modelled by the exact `Real.log`, so the success-run
sample size lives in `ℤ` via the real ceiling; the rest of the
arithmetic stays in `ℚ`. -/

/-- The `input_fields` of `TestSampleSizeCalculator.info`. -/
def tssFields : List FieldSpec :=
  [ { name := "target_reliability", label := "Target Reliability", ftype := .ffloat,
      required := true, min_value := some (1 / 10), max_value := some (999 / 1000) },
    { name := "confidence_level", label := "Confidence Level", ftype := .fselect,
      required := true, options := ["80", "90", "95", "99"] },
    { name := "test_type", label := "Test Type", ftype := .fselect,
      required := true, options := ["success_run", "time_terminated", "failure_terminated"] },
    { name := "test_duration", label := "Test Duration", ftype := .ffloat,
      required := false, min_value := some 0 },
    { name := "target_mtbf", label := "Target MTBF", ftype := .ffloat,
      required := false, min_value := some 0 },
    { name := "max_failures", label := "Maximum Allowed Failures", ftype := .fint,
      required := false, min_value := some 0, max_value := some 100 } ]

/-- The `chi_square_values` dictionary: rows indexed by confidence
level, entries indexed by `max_failures` 0..3. -/
def chiSquareTable (confidence_level : ℕ) : Option (List (ℤ × ℚ)) :=
  if confidence_level = 80 then some [(0, 1.609), (1, 3.219), (2, 4.642), (3, 5.989)]
  else if confidence_level = 90 then some [(0, 2.303), (1, 4.605), (2, 6.251), (3, 7.779)]
  else if confidence_level = 95 then some [(0, 2.996), (1, 5.991), (2, 7.815), (3, 9.488)]
  else if confidence_level = 99 then some [(0, 4.605), (1, 9.210), (2, 11.345), (3, 13.277)]
  else none

/-- `chi_square_values[confidence_level][max_failures]`: the two
dictionary subscripts, each raising `KeyError` on a miss. -/
def chiLookup (confidence_level : ℕ) (max_failures : ℤ) : Except CalcError ℚ :=
  match chiSquareTable confidence_level with
  | none => .error (.keyError (toString confidence_level))
  | some row =>
    match row.lookup max_failures with
    | none => .error (.keyError (toString max_failures))
    | some v => .ok v

/-- Python truthiness of an optional float (`None` and `0.0` falsy),
as used in `elif test_type == "time_terminated" and test_duration and
target_mtbf`. -/
def truthyQ : Option ℚ → Bool
  | none => false
  | some q => q != 0

/-- One entry of `alternative_scenarios`. -/
structure AltScenario : Type where
  confidence_level : ℕ
  sample_size : ℤ
  reduction : ℤ
deriving DecidableEq

/-- The result dictionary of `TestSampleSizeCalculator.calculate`.
Keys the code adds only conditionally are `Option`s / lists defaulting
to `none` / `[]` (the key being absent). -/
structure TSSResults : Type where
  target_reliability : ℚ
  confidence_level : ℕ
  test_type : String
  max_failures_allowed : ℤ
  required_sample_size : Option ℤ := none
  total_test_time : Option ℚ := none
  test_duration_per_unit : Option ℚ := none
  chi_square_value : Option ℚ := none
  estimated_sample_size : Option ℤ := none
  expected_total_test_time : Option ℚ := none
  test_method : Option String := none
  total_test_hours : Option ℚ := none
  test_cost_factor : Option ℚ := none
  recommendations : List String := []
  alternative_scenarios : List AltScenario := []
deriving DecidableEq

/-- `n = ceil( ln(1 − confidence/100) / ln(target_reliability) )`, the
success-run sample-size formula. -/
noncomputable def successRunSize (target_reliability : ℚ) (confidence_level : ℕ) : ℤ :=
  ⌈Real.log (1 - (confidence_level : ℝ) / 100) / Real.log ((target_reliability : ℚ) : ℝ)⌉

/-- The body of `TestSampleSizeCalculator.calculate` after
`validate_inputs`: the `test_type` branch chain, the efficiency
metrics, the recommendations and the alternative scenarios. -/
noncomputable def tssCompute (validated : List (String × Value)) : Except CalcError TSSResults :=
  match validated.lookup "target_reliability" with
  | some (.vfloat target_reliability) =>
    match validated.lookup "confidence_level" with
    | none => .error (.keyError "confidence_level")
    | some clv =>
      match pyIntOfValue clv with
      | none => .error (.valueError "invalid literal for int() with base 10")
      | some clz =>
        let confidence_level : ℕ := clz.toNat
        match validated.lookup "test_type" with
        | some (.vstr test_type) =>
          let test_duration := getFloat? (validated.lookup "test_duration")
          let target_mtbf := getFloat? (validated.lookup "target_mtbf")
          let max_failures : ℤ := (getInt? (validated.lookup "max_failures")).getD 0
          let base : TSSResults :=
            { target_reliability := target_reliability
              confidence_level := confidence_level
              test_type := test_type
              max_failures_allowed := max_failures }
          let branched : Except CalcError TSSResults :=
            if test_type = "success_run" then
              let n := successRunSize target_reliability confidence_level
              let alts := ([80, 90] : List ℕ).filterMap fun alt =>
                if alt ≠ confidence_level then
                  let asize := successRunSize target_reliability alt
                  some { confidence_level := alt, sample_size := asize, reduction := n - asize }
                else none
              .ok { base with
                required_sample_size := some n
                test_method := some "Success Run Test"
                alternative_scenarios := alts }
            else if test_type = "time_terminated" ∧ truthyQ test_duration ∧ truthyQ target_mtbf then
              (chiLookup confidence_level max_failures).map fun chi_square =>
                let d := test_duration.getD 0
                let total_test_time := chi_square * target_mtbf.getD 0 / 2
                let n : ℤ := ⌈total_test_time / d⌉
                { base with
                  required_sample_size := some n
                  total_test_time := some (pyRound total_test_time 2)
                  test_duration_per_unit := some d
                  test_method := some "Time-Terminated Test"
                  chi_square_value := some chi_square }
            else if test_type = "failure_terminated" ∧ truthyQ target_mtbf then
              (chiLookup confidence_level max_failures).map fun chi_square =>
                let total_test_time := chi_square * target_mtbf.getD 0 / 2
                let est : ℤ := if 0 < max_failures then max_failures * 3 else 10
                { base with
                  estimated_sample_size := some est
                  expected_total_test_time := some (pyRound total_test_time 2)
                  test_method := some "Failure-Terminated Test"
                  chi_square_value := some chi_square }
            else .ok base
          branched.map fun r0 =>
            let r1 :=
              match r0.required_sample_size, test_duration with
              | some n, some d =>
                if d != 0 then
                  let total_test_hours := (n : ℚ) * d
                  { r0 with
                    total_test_hours := some (pyRound total_test_hours 2)
                    test_cost_factor := some (pyRound (total_test_hours / 1000) 2) }
                else r0
              | _, _ => r0
            let recs :=
              (if target_reliability > 99 / 100 then
                ["High reliability target requires large sample sizes"] else []) ++
              (if 95 ≤ confidence_level then
                ["High confidence level increases required sample size"] else []) ++
              (if test_type = "success_run" ∧ target_reliability > 95 / 100 then
                ["Consider time-terminated testing for cost efficiency"] else [])
            { r1 with recommendations := recs }
        | _ => .error (.keyError "test_type")
  | none => .error (.keyError "target_reliability")
  | some _ => .error (.valueError typeErrorMsg)

/-- `TestSampleSizeCalculator.calculate`. -/
noncomputable def tssCalculate (raw : String → Option RawValue) : Except CalcError TSSResults :=
  match validate_inputs tssFields raw with
  | .error msg => .error (.valueError msg)
  | .ok validated => tssCompute validated

/-! ### Test-sample-size claims -/

/-- `int("90")` evaluates to `90`. -/
theorem parseIntZ_90 : parseIntZ "90" = some 90 := by decide

/-- `ceil( ln(1 − 90/100) / ln(0.95) ) = 45`, via
`(20/19)^44 < 10 ≤ (20/19)^45`. -/
theorem successRunSize_scenarioC : successRunSize (19 / 20) 90 = 45 := by
  unfold successRunSize
  have hcast : (((19 : ℚ) / 20 : ℚ) : ℝ) = 19 / 20 := by push_cast; ring
  rw [hcast]
  have h1 : (1 : ℝ) - (90 : ℕ) / 100 = 1 / 10 := by norm_num
  rw [h1]
  have hL : (0 : ℝ) < Real.log (20 / 19) := Real.log_pos (by norm_num)
  have hlog1 : Real.log ((1 : ℝ) / 10) = -Real.log 10 := by
    rw [one_div, Real.log_inv]
  have hlog2 : Real.log ((19 : ℝ) / 20) = -Real.log (20 / 19) := by
    rw [show ((19 : ℝ) / 20) = (20 / 19)⁻¹ by norm_num, Real.log_inv]
  rw [hlog1, hlog2, neg_div_neg_eq, Int.ceil_eq_iff]
  constructor
  · rw [lt_div_iff₀ hL]
    have hp : ((20 : ℝ) / 19) ^ 44 < 10 := by norm_num
    have hlt := (Real.log_lt_log_iff (by positivity) (by norm_num)).mpr hp
    rw [Real.log_pow] at hlt
    push_cast
    linarith
  · rw [div_le_iff₀ hL]
    have hp : (10 : ℝ) ≤ ((20 : ℝ) / 19) ^ 45 := by norm_num
    have hle := (Real.log_le_log_iff (by norm_num) (by positivity)).mpr hp
    rw [Real.log_pow] at hle
    push_cast
    linarith

/-- Scenario C validated inputs:
`{target_reliability: 0.95, confidence_level: "90", test_type: "success_run"}`. -/
def tssValidC : List (String × Value) :=
  [("target_reliability", .vfloat (19 / 20)), ("confidence_level", .vstr "90"),
   ("test_type", .vstr "success_run")]

/-- C3: for every validated success-run input (targetReliability in
[0.1, 0.999], confidenceLevel one of 80/90/95/99) the returned
`required_sample_size` is `successRunSize`, i.e.
`ceil(ln(1 − C/100)/ln(targetReliability))`, a function of
targetReliability and confidenceLevel alone; and scenario C
(`targetReliability = 0.95`, confidence `"90"`) returns 45. -/
theorem tss_success_run_formula :
    (∀ (validated : List (String × Value)) (R : ℚ) (s : String) (r : TSSResults),
        validated.lookup "target_reliability" = some (.vfloat R) →
        R ∈ Set.Icc (1 / 10 : ℚ) (999 / 1000) →
        validated.lookup "confidence_level" = some (.vstr s) →
        s ∈ ["80", "90", "95", "99"] →
        validated.lookup "test_type" = some (.vstr "success_run") →
        tssCompute validated = .ok r →
        r.required_sample_size = some (successRunSize R r.confidence_level)) ∧
    (tssCompute tssValidC).map (fun r => r.required_sample_size) = .ok (some 45) := by
  constructor
  · intro validated R s r hR hRmem hcl hsmem htt hok
    simp only [tssCompute, hR, hcl, htt] at hok
    rcases hpi : pyIntOfValue (.vstr s) with _ | clz
    · simp only [hpi] at hok; exact absurd hok (by simp)
    simp only [hpi, Except.map, if_true] at hok
    rcases htd : getFloat? (validated.lookup "test_duration") with _ | d
    · simp only [htd] at hok
      simp only [Except.ok.injEq] at hok
      subst hok
      simp
    · simp only [htd] at hok
      by_cases hd : (d != 0) = true
      · simp only [hd, if_true] at hok
        simp only [Except.ok.injEq] at hok
        subst hok
        simp
      · simp only [hd, if_false] at hok
        simp only [Except.ok.injEq] at hok
        subst hok
        simp
  · have h45 := successRunSize_scenarioC
    simp [tssCompute, tssValidC, List.lookup, getFloat?, getInt?, pyIntOfValue,
      parseIntZ_90, Except.map, truthyQ, h45]

/-- The full record the calculator returns for scenario C. -/
noncomputable def tssScenarioCRecord : TSSResults :=
  { target_reliability := 19 / 20
    confidence_level := 90
    test_type := "success_run"
    max_failures_allowed := 0
    required_sample_size := some (successRunSize (19 / 20) 90)
    test_method := some "Success Run Test"
    alternative_scenarios :=
      [⟨80, successRunSize (19 / 20) 80, successRunSize (19 / 20) 90 - successRunSize (19 / 20) 80⟩] }

/-- Closed witness for the universally-quantified part of the C3
theorem, at the scenario C validated inputs. -/
theorem tss_success_run_formula_witness :
    tssScenarioCRecord.required_sample_size =
      some (successRunSize (19 / 20) tssScenarioCRecord.confidence_level) :=
  tss_success_run_formula.1 tssValidC (19 / 20) "90" tssScenarioCRecord rfl
    (by norm_num [Set.mem_Icc]) rfl (by simp) rfl
    (by
      simp [tssCompute, tssValidC, List.lookup, getFloat?, getInt?, pyIntOfValue,
        parseIntZ_90, Except.map, truthyQ, tssScenarioCRecord]
      norm_num)

/-- Scenario raw request for C6: `time_terminated` with `target_mtbf`
but no `test_duration`. -/
def rawScenarioC6 : String → Option RawValue := fun k =>
  if k = "target_reliability" then some (.num (19 / 20))
  else if k = "confidence_level" then some (.str "90")
  else if k = "test_type" then some (.str "time_terminated")
  else if k = "target_mtbf" then some (.num 1000)
  else none

/-- C6 (code bug evidence): the `time_terminated` request lacking
`test_duration` passes validation, takes no branch of the `elif`
chain, and returns a SUCCESS result carrying only the echo fields — no
`required_sample_size` and no error of any kind. -/
theorem tss_time_terminated_missing_duration_silent :
    tssCalculate rawScenarioC6 =
      .ok { target_reliability := 19 / 20, confidence_level := 90,
            test_type := "time_terminated", max_failures_allowed := 0 } := by
  have hval : validate_inputs tssFields rawScenarioC6 =
      .ok [("target_reliability", .vfloat (19 / 20)), ("confidence_level", .vstr "90"),
           ("test_type", .vstr "time_terminated"), ("target_mtbf", .vfloat 1000)] := by
    simp [validate_inputs, validateLoop, validateField, tssFields, rawScenarioC6,
      isMissing, pyFloatOf]
    norm_num
  rw [tssCalculate, hval]
  simp [tssCompute, List.lookup, getFloat?, getInt?, pyIntOfValue, parseIntZ_90,
    Except.map, truthyQ]
  norm_num

/-- A `max_failures` key outside 0..3 misses the chi-square table row
and raises `KeyError(max_failures)`. -/
theorem chiLookup_miss (cl : ℕ) (hcl : cl ∈ [80, 90, 95, 99]) (mf : ℤ)
    (hmf : mf ∉ ([0, 1, 2, 3] : List ℤ)) :
    chiLookup cl mf = .error (.keyError (toString mf)) := by
  simp only [List.mem_cons, List.not_mem_nil, or_false] at hcl hmf
  push_neg at hmf
  obtain ⟨h0, h1, h2, h3⟩ := hmf
  have e0 : (mf == (0 : ℤ)) = false := beq_eq_false_iff_ne.mpr h0
  have e1 : (mf == (1 : ℤ)) = false := beq_eq_false_iff_ne.mpr h1
  have e2 : (mf == (2 : ℤ)) = false := beq_eq_false_iff_ne.mpr h2
  have e3 : (mf == (3 : ℤ)) = false := beq_eq_false_iff_ne.mpr h3
  rcases hcl with rfl | rfl | rfl | rfl <;>
    simp [chiLookup, chiSquareTable, List.lookup, e0, e1, e2, e3]

/-- C8 (amended): for every validated `time_terminated` or
`failure_terminated` input whose branch is actually entered and whose
`max_failures` lies outside the table's {0,1,2,3}, the computation
fails by raising the uncaught dictionary `KeyError` carrying the
missing failure count as its key — not a "unsupported failure count"
message — and never falls back to a default chi-square value. -/
theorem tss_out_of_table_max_failures_keyerror
    (validated : List (String × Value)) (R : ℚ) (s tt : String) (clz mf : ℤ)
    (hR : validated.lookup "target_reliability" = some (.vfloat R))
    (hcl : validated.lookup "confidence_level" = some (.vstr s))
    (hpi : pyIntOfValue (.vstr s) = some clz)
    (hclmem : clz.toNat ∈ [80, 90, 95, 99])
    (htt : validated.lookup "test_type" = some (.vstr tt))
    (hmf : (getInt? (validated.lookup "max_failures")).getD 0 = mf)
    (hmfout : mf ∉ ([0, 1, 2, 3] : List ℤ))
    (hbranch : (tt = "time_terminated" ∧
        truthyQ (getFloat? (validated.lookup "test_duration")) = true ∧
        truthyQ (getFloat? (validated.lookup "target_mtbf")) = true) ∨
      (tt = "failure_terminated" ∧
        truthyQ (getFloat? (validated.lookup "target_mtbf")) = true)) :
    tssCompute validated = .error (.keyError (toString mf)) := by
  have hchi := chiLookup_miss clz.toNat hclmem mf hmfout
  rcases hbranch with ⟨rfl, htd, htm⟩ | ⟨rfl, htm⟩
  · simp [tssCompute, hR, hcl, hpi, htt, hmf, htd, htm, hchi, Except.map]
  · simp [tssCompute, hR, hcl, hpi, htt, hmf, htm, hchi, Except.map]

/-- Scenario raw request for C8: valid inputs with `max_failures = 4`. -/
def rawScenarioC8 : String → Option RawValue := fun k =>
  if k = "target_reliability" then some (.num (19 / 20))
  else if k = "confidence_level" then some (.str "90")
  else if k = "test_type" then some (.str "time_terminated")
  else if k = "test_duration" then some (.num 10)
  else if k = "target_mtbf" then some (.num 1000)
  else if k = "max_failures" then some (.num 4)
  else none

/-- C8 counterexample: `max_failures = 4` (validator-admissible, range
0..100) makes the calculator raise a bare `KeyError` whose message is
just the missing key `"4"`, not any "unsupported failure count"
error. -/
theorem tss_unsupported_message_counterexample :
    tssCalculate rawScenarioC8 = .error (.keyError "4") ∧
      (CalcError.keyError "4" ≠ .valueError "unsupported failure count") := by
  constructor
  · have hval : validate_inputs tssFields rawScenarioC8 =
        .ok [("target_reliability", .vfloat (19 / 20)), ("confidence_level", .vstr "90"),
             ("test_type", .vstr "time_terminated"), ("test_duration", .vfloat 10),
             ("target_mtbf", .vfloat 1000), ("max_failures", .vint 4)] := by
      simp [validate_inputs, validateLoop, validateField, tssFields, rawScenarioC8,
        isMissing, pyFloatOf, pyIntOf, truncQ]
      norm_num
    rw [tssCalculate, hval]
    have h4 : (toString (4 : ℤ)) = "4" := rfl
    have hchi := chiLookup_miss 90 (by simp) 4 (by decide)
    rw [h4] at hchi
    simp [tssCompute, List.lookup, getFloat?, getInt?, pyIntOfValue, parseIntZ_90,
      Except.map, truthyQ, hchi]
  · simp

/-- Closed witness for `tss_out_of_table_max_failures_keyerror`, at
validated inputs with confidence 90 and `max_failures = 4`. -/
theorem tss_out_of_table_max_failures_keyerror_witness :
    tssCompute [("target_reliability", Value.vfloat (19 / 20)),
        ("confidence_level", Value.vstr "90"), ("test_type", Value.vstr "time_terminated"),
        ("test_duration", Value.vfloat 10), ("target_mtbf", Value.vfloat 1000),
        ("max_failures", Value.vint 4)] = .error (.keyError (toString (4 : ℤ))) :=
  tss_out_of_table_max_failures_keyerror _ (19 / 20) "90" "time_terminated" 90 4
    rfl rfl (by decide) (by decide) rfl rfl (by decide)
    (.inl ⟨rfl, by simp [truthyQ, getFloat?, List.lookup],
      by simp [truthyQ, getFloat?, List.lookup]⟩)

/-! ### Duane model calculator
(`backend/app/calculators/duanemodel.py`)

The log-log regression uses `math.log`/`math.exp`, modelled by the
exact `Real.log`/`Real.exp`, so the derived quantities live in `ℝ`.
`math.log` of a non-positive argument and float division by zero are
modelled as the errors they raise in Python. -/

/-- `"Failure times must be in strictly ascending order"`. -/
def orderingMsg : String := "Failure times must be in strictly ascending order"

/-- `"math domain error"`, the message of the `ValueError` raised by
`math.log` on a non-positive argument. -/
def mathDomainMsg : String := "math domain error"

/-- The `input_fields` of `DuaneModelCalculator.info`. -/
def duaneFields : List FieldSpec :=
  [ { name := "failure_times", label := "Failure Times", ftype := .ftext, required := true },
    { name := "target_time", label := "Target Time", ftype := .ffloat,
      required := false, min_value := some 0 },
    { name := "confidence_level", label := "Confidence Level", ftype := .fselect,
      required := true, options := ["90", "95", "99"] },
    { name := "total_test_time", label := "Total Test Time", ftype := .ffloat,
      required := false, min_value := some 0 } ]

/-- `failure_times_str.split(',')` on the character list. -/
def splitOnComma (cs : List Char) : List (List Char) :=
  cs.foldr
    (fun c acc =>
      if c = ',' then [] :: acc
      else
        match acc with
        | [] => [[c]]
        | t :: ts => (c :: t) :: ts)
    [[]]

/-- The trimmed-token float parser shared with `parseFloatQ`. -/
def parseFloatCore (cs : List Char) : Option ℚ :=
  let signAndRest : ℚ × List Char :=
    match cs with
    | '-' :: r => (-1, r)
    | '+' :: r => (1, r)
    | r => (1, r)
  let sign := signAndRest.1
  let rest := signAndRest.2
  let intPart := rest.takeWhile (fun c => c ≠ '.')
  let tail := rest.dropWhile (fun c => c ≠ '.')
  let digitsVal : List Char → ℚ := fun l => ((l.foldl (fun n c => n * 10 + (c.toNat - 48)) 0 : ℕ) : ℚ)
  match tail with
  | [] =>
    if rest ≠ [] ∧ rest.all Char.isDigit then some (sign * digitsVal rest) else none
  | _ :: frac =>
    if (intPart ≠ [] ∨ frac ≠ []) ∧ intPart.all Char.isDigit ∧ frac.all Char.isDigit then
      some (sign * (digitsVal intPart + digitsVal frac / 10 ^ frac.length))
    else none

/-- Parse each token as a float; any failure fails the whole list
(the comprehension's `ValueError`). -/
def parseTokens : List (List Char) → Option (List ℚ)
  | [] => some []
  | t :: rest =>
    match parseFloatCore t, parseTokens rest with
    | some q, some qs => some (q :: qs)
    | _, _ => none

/-- `[float(x.strip()) for x in failure_times_str.split(',') if x.strip()]`:
split on commas, strip each token, drop empty tokens, parse each as a
float; `none` models the `ValueError` of a non-numeric token. -/
def parseFailureTimes (s : String) : Option (List ℚ) :=
  parseTokens (((splitOnComma s.data).map trimList).filter (fun t => t ≠ []))

/-- `failure_times.sort()`: Python's stable ascending sort. -/
def sortQ (l : List ℚ) : List ℚ := l.mergeSort

/-- The `duane_model_parameters` payload (values rounded to 6 places
as the code rounds them). -/
structure DuaneParams : Type where
  alpha : ℝ
  beta : ℝ
  ln_alpha : ℝ

/-- The `model_fit_statistics` payload. -/
structure DuaneFit : Type where
  r_squared : ℝ
  standard_error_beta : ℝ
  standard_error_alpha : ℝ
  degrees_of_freedom : ℤ

/-- The payload of `_predict_mtbf_at_time`. -/
structure DuanePrediction : Type where
  time : ℚ
  mtbf_cumulative : ℝ
  mtbf_instantaneous : PyF ℝ
  ci_lower : ℝ
  ci_upper : ℝ
  ci_level : ℕ

/-- The result dictionary of `DuaneModelCalculator.calculate`. -/
structure DuaneResults : Type where
  failure_times : List ℚ
  number_of_failures : ℕ
  test_duration : ℚ
  confidence_level : ℕ
  parameters : DuaneParams
  cumulative_mtbf : List ℚ
  failure_numbers : List ℕ
  fit : DuaneFit
  target_prediction : Option DuanePrediction
  final_prediction : DuanePrediction
  growth_rate_percent : ℝ
  interpretation : String
  time_to_double_mtbf : PyF ℝ

open Classical in
/-- `_interpret_growth_rate`: the ordered `if`/`elif` classification of
the (rounded) growth parameter beta. -/
noncomputable def interpretGrowthRate (beta : ℝ) : String :=
  if 1 < beta then "Reliability is deteriorating (β > 1)"
  else if beta = 1 then "No reliability growth (β = 1, constant failure rate)"
  else if 0.8 < beta then "Slow reliability growth (β > 0.8)"
  else if 0.5 < beta then "Moderate reliability growth (0.5 < β ≤ 0.8)"
  else if 0.2 < beta then "Good reliability growth (0.2 < β ≤ 0.5)"
  else "Excellent reliability growth (β ≤ 0.2)"

open Classical in
/-- `_calculate_time_to_double_mtbf`: `inf` outside `0 < beta < 1`,
else `current_time * (2^(1/beta) − 1)` rounded to 2 places. -/
noncomputable def timeToDouble (beta : ℝ) (current_time : ℚ) : PyF ℝ :=
  if beta ≤ 0 ∨ 1 ≤ beta then .inf
  else .fin (pyRound ((current_time : ℝ) * ((2 : ℝ) ^ ((1 : ℝ) / beta) - 1)) 2)

open Classical in
/-- `_calculate_duane_model`: cumulative-MTBF construction and
ordinary least-squares regression of `ln(cumulative_mtbf)` on
`ln(failure_times)`.  Returns the rounded parameters, the
`cumulative_data` lists, the fit statistics and the test duration;
fails with `math domain error` when a failure time is non-positive
(`math.log`) and with `ZeroDivisionError` when the regression
denominator is zero. -/
noncomputable def duaneModel (failure_times : List ℚ) (total_test_time : Option ℚ) :
    Except CalcError (DuaneParams × List ℚ × List ℕ × DuaneFit × ℚ) :=
  let n : ℕ := failure_times.length
  let failure_numbers : List ℕ := List.range' 1 n
  let cumulative_mtbf : List ℚ :=
    (failure_times.zip failure_numbers).map fun p => p.1 / (p.2 : ℚ)
  let test_duration : ℚ := total_test_time.getD (failure_times.getLastD 0)
  if ¬ failure_times.all (fun t => 0 < t) then .error (.valueError mathDomainMsg)
  else
    let ln_times : List ℝ := failure_times.map fun t => Real.log (t : ℝ)
    let ln_mtbf : List ℝ := cumulative_mtbf.map fun m => Real.log (m : ℝ)
    let sum_x := ln_times.sum
    let sum_y := ln_mtbf.sum
    let sum_xx := (ln_times.map fun x => x * x).sum
    let sum_xy := ((ln_times.zip ln_mtbf).map fun p => p.1 * p.2).sum
    let denom := (n : ℝ) * sum_xx - sum_x * sum_x
    if denom = 0 then .error .zeroDivision
    else
      let beta := ((n : ℝ) * sum_xy - sum_x * sum_y) / denom
      let ln_alpha := (sum_y - beta * sum_x) / n
      let alpha := Real.exp ln_alpha
      let y_mean := sum_y / n
      let ss_tot := (ln_mtbf.map fun y => (y - y_mean) ^ 2).sum
      let y_pred := ln_times.map fun x => ln_alpha + beta * x
      let ss_res := ((ln_mtbf.zip y_pred).map fun p => (p.1 - p.2) ^ 2).sum
      let r_squared : ℝ := if ss_tot > 0 then 1 - ss_res / ss_tot else 0
      let mse : ℝ := if 2 < n then ss_res / ((n : ℝ) - 2) else 0
      let s_xx := (ln_times.map fun x => (x - sum_x / n) ^ 2).sum
      let se_beta : ℝ := if s_xx > 0 then Real.sqrt (mse / s_xx) else 0
      let se_alpha : ℝ := if s_xx > 0 then Real.sqrt (mse * (1 / n + (sum_x / n) ^ 2 / s_xx)) else 0
      .ok
        ({ alpha := pyRound alpha 6, beta := pyRound beta 6, ln_alpha := pyRound ln_alpha 6 },
          cumulative_mtbf.map (fun m => pyRound m 2),
          failure_numbers,
          { r_squared := pyRound r_squared 6, standard_error_beta := pyRound se_beta 6,
            standard_error_alpha := pyRound se_alpha 6, degrees_of_freedom := (n : ℤ) - 2 },
          test_duration)

open Classical in
/-- `_predict_mtbf_at_time` on the rounded parameters: power-law
prediction, `z`-value lookup (a `KeyError` on an unknown confidence
level) and the simplified log-normal interval; `math.log` of a
non-positive predicted MTBF raises `math domain error`. -/
noncomputable def predictMtbf (time : ℚ) (parameters : DuaneParams) (confidence_level : ℕ) :
    Except CalcError DuanePrediction :=
  let alpha := parameters.alpha
  let beta := parameters.beta
  let mtbf_cumulative := alpha * (time : ℝ) ^ beta
  let mtbf_instantaneous : PyF ℝ :=
    if beta ≠ 0 then .fin (alpha / beta * (time : ℝ) ^ beta) else .inf
  match zValues confidence_level with
  | none => .error (.keyError (toString confidence_level))
  | some z =>
    if mtbf_cumulative ≤ 0 then .error (.valueError mathDomainMsg)
    else
      let ln_mtbf := Real.log mtbf_cumulative
      let se : ℝ := 0.1
      .ok
        { time := time
          mtbf_cumulative := pyRound mtbf_cumulative 2
          mtbf_instantaneous := mtbf_instantaneous.round 2
          ci_lower := pyRound (Real.exp (ln_mtbf - (z : ℝ) * se)) 2
          ci_upper := pyRound (Real.exp (ln_mtbf + (z : ℝ) * se)) 2
          ci_level := confidence_level }

/-- The part of `DuaneModelCalculator.calculate` after the parse,
count and ascending-order checks: the regression, the optional target
prediction, the final prediction and the growth interpretation. -/
noncomputable def duaneAfterChecks (ft : List ℚ) (target_time : Option ℚ)
    (confidence_level : ℕ) (total_test_time : Option ℚ) : Except CalcError DuaneResults :=
  match duaneModel ft total_test_time with
  | .error e => .error e
  | .ok (parameters, cumulative_rounded, failure_numbers, fit, test_duration) =>
    let targetStep : Except CalcError (Option DuanePrediction) :=
      match target_time with
      | some t => if 0 < t then (predictMtbf t parameters confidence_level).map some else .ok none
      | none => .ok none
    match targetStep with
    | .error e => .error e
    | .ok target_prediction =>
      match predictMtbf test_duration parameters confidence_level with
      | .error e => .error e
      | .ok final_prediction =>
        let beta := parameters.beta
        .ok
          { failure_times := ft
            number_of_failures := ft.length
            test_duration := test_duration
            confidence_level := confidence_level
            parameters := parameters
            cumulative_mtbf := cumulative_rounded
            failure_numbers := failure_numbers
            fit := fit
            target_prediction := target_prediction
            final_prediction := final_prediction
            growth_rate_percent := pyRound ((1 - beta) * 100) 2
            interpretation := interpretGrowthRate beta
            time_to_double_mtbf := timeToDouble beta test_duration }

/-- The body of `DuaneModelCalculator.calculate` after
`validate_inputs`, given the four extracted inputs: parse the failure
times, sort ascending, require at least two values, reject
non-strictly-ascending (i.e. duplicated) sorted values, then run the
model. -/
noncomputable def duaneCalc (failure_times_str : String) (target_time : Option ℚ)
    (confidence_level : ℕ) (total_test_time : Option ℚ) : Except CalcError DuaneResults :=
  match parseFailureTimes failure_times_str with
  | none => .error (.valueError "Failure times must be numeric values separated by commas")
  | some parsed =>
    let ft := sortQ parsed
    if ft.length < 2 then
      .error (.valueError "At least 2 failure times are required for Duane model analysis")
    else if ¬ List.Chain' (· < ·) ft then .error (.valueError orderingMsg)
    else duaneAfterChecks ft target_time confidence_level total_test_time

/-- `DuaneModelCalculator.calculate`: validation, extraction of the
four inputs from the validated dict, then the computation. -/
noncomputable def duaneCalculate (raw : String → Option RawValue) :
    Except CalcError DuaneResults :=
  match validate_inputs duaneFields raw with
  | .error msg => .error (.valueError msg)
  | .ok validated =>
    match validated.lookup "failure_times" with
    | some (.vstr failure_times_str) =>
      match validated.lookup "confidence_level" with
      | none => .error (.keyError "confidence_level")
      | some clv =>
        match pyIntOfValue clv with
        | none => .error (.valueError "invalid literal for int() with base 10")
        | some clz =>
          duaneCalc failure_times_str (getFloat? (validated.lookup "target_time"))
            clz.toNat (getFloat? (validated.lookup "total_test_time"))
    | some _ => .error (.valueError typeErrorMsg)
    | none => .error (.keyError "failure_times")

/-! ### Duane claims -/

/-- The six interpretation buckets of §4.3 step 11. -/
inductive GrowthBucket : Type
  | deteriorating
  | noGrowth
  | slow
  | moderate
  | good
  | excellent
deriving DecidableEq

/-- The bucket intervals as the spec states them, written as pairwise
disjoint conditions (not first-match order). -/
def growthBucketMem (beta : ℝ) : GrowthBucket → Prop
  | .deteriorating => 1 < beta
  | .noGrowth => beta = 1
  | .slow => 0.8 < beta ∧ beta < 1
  | .moderate => 0.5 < beta ∧ beta ≤ 0.8
  | .good => 0.2 < beta ∧ beta ≤ 0.5
  | .excellent => beta ≤ 0.2

/-- The string the code returns for each bucket. -/
def growthBucketString : GrowthBucket → String
  | .deteriorating => "Reliability is deteriorating (β > 1)"
  | .noGrowth => "No reliability growth (β = 1, constant failure rate)"
  | .slow => "Slow reliability growth (β > 0.8)"
  | .moderate => "Moderate reliability growth (0.5 < β ≤ 0.8)"
  | .good => "Good reliability growth (0.2 < β ≤ 0.5)"
  | .excellent => "Excellent reliability growth (β ≤ 0.2)"

/-- C2: the Duane growth interpretation is a total function of beta:
every real beta lies in exactly one of the six buckets (no gaps, no
overlaps), and on each bucket the ordered first-match `if`/`elif`
chain of `_interpret_growth_rate` returns that bucket's string. -/
theorem duane_interpretation_total (beta : ℝ) :
    (∃! b : GrowthBucket, growthBucketMem beta b) ∧
    ∀ b : GrowthBucket, growthBucketMem beta b →
      interpretGrowthRate beta = growthBucketString b := by
  have huniq : ∀ b : GrowthBucket, growthBucketMem beta b →
      ∀ y : GrowthBucket, growthBucketMem beta y → y = b := by
    intro b hb y hy
    cases b <;> cases y <;>
      simp only [growthBucketMem] at hb hy <;>
      first
        | rfl
        | (exfalso
           try obtain ⟨hb1, hb2⟩ := hb
           try obtain ⟨hy1, hy2⟩ := hy
           try subst hb
           try subst hy
           linarith)
  constructor
  · rcases le_or_lt beta 0.2 with h02 | h02
    · exact ⟨.excellent, h02, fun y hy => huniq .excellent h02 y hy⟩
    · rcases le_or_lt beta 0.5 with h05 | h05
      · exact ⟨.good, ⟨h02, h05⟩, fun y hy => huniq .good ⟨h02, h05⟩ y hy⟩
      · rcases le_or_lt beta 0.8 with h08 | h08
        · exact ⟨.moderate, ⟨h05, h08⟩, fun y hy => huniq .moderate ⟨h05, h08⟩ y hy⟩
        · rcases lt_trichotomy beta 1 with h1 | h1 | h1
          · exact ⟨.slow, ⟨h08, h1⟩, fun y hy => huniq .slow ⟨h08, h1⟩ y hy⟩
          · exact ⟨.noGrowth, h1, fun y hy => huniq .noGrowth h1 y hy⟩
          · exact ⟨.deteriorating, h1, fun y hy => huniq .deteriorating h1 y hy⟩
  · intro b hb
    cases b <;> simp only [growthBucketMem] at hb
    · rw [interpretGrowthRate, if_pos hb]; rfl
    · rw [interpretGrowthRate, if_neg (by rw [hb]; exact lt_irrefl 1), if_pos hb]; rfl
    · obtain ⟨h1, h2⟩ := hb
      rw [interpretGrowthRate, if_neg (by linarith), if_neg (by intro h; linarith [h ▸ h2]),
        if_pos h1]
      rfl
    · obtain ⟨h1, h2⟩ := hb
      rw [interpretGrowthRate, if_neg (by norm_num; linarith),
        if_neg (by intro h; rw [h] at h2; norm_num at h2), if_neg (by norm_num; linarith),
        if_pos h1]
      rfl
    · obtain ⟨h1, h2⟩ := hb
      rw [interpretGrowthRate, if_neg (by norm_num; linarith),
        if_neg (by intro h; rw [h] at h2; norm_num at h2), if_neg (by norm_num; linarith),
        if_neg (by norm_num; linarith), if_pos h1]
      rfl
    · rw [interpretGrowthRate, if_neg (by norm_num; linarith),
        if_neg (by intro h; rw [h] at hb; norm_num at hb), if_neg (by norm_num; linarith),
        if_neg (by norm_num; linarith), if_neg (by norm_num; linarith)]
      rfl

/-- Closed witness for `duane_interpretation_total` at `beta = 0.9`
(the slow-growth bucket). -/
theorem duane_interpretation_total_witness :
    interpretGrowthRate 0.9 = growthBucketString .slow :=
  (duane_interpretation_total 0.9).2 .slow (by norm_num [growthBucketMem])

/-- `failure_times.sort()` permutes the parsed list. -/
theorem sortQ_perm (l : List ℚ) : (sortQ l).Perm l := List.mergeSort_perm l _

/-- `failure_times.sort()` sorts ascending. -/
theorem sortQ_sorted (l : List ℚ) : (sortQ l).Sorted (· ≤ ·) := List.sorted_mergeSort' l

/-- A sorted list of distinct values is strictly ascending, so the
post-sort check of `calculate` passes. -/
theorem sortQ_chain_of_nodup (l : List ℚ) (h : l.Nodup) :
    List.Chain' (· < ·) (sortQ l) := by
  have hnd : (sortQ l).Nodup := ((sortQ_perm l).nodup_iff).mpr h
  have hs : (sortQ l).Pairwise (· ≤ ·) := sortQ_sorted l
  exact List.chain'_iff_pairwise.mpr ((hs.and hnd).imp fun hx => lt_of_le_of_ne hx.1 hx.2)

/-- A sorted list with a duplicate is not strictly ascending, so the
post-sort check of `calculate` fires. -/
theorem sortQ_not_chain_of_dup (l : List ℚ) (h : ¬ l.Nodup) :
    ¬ List.Chain' (· < ·) (sortQ l) := by
  intro hc
  exact h (((sortQ_perm l).nodup_iff).mp ((List.chain'_iff_pairwise.mp hc).imp ne_of_lt))

/-- A mapped `Except` is an error exactly when the original is. -/
theorem exceptMap_eq_error {e1 : Type} {a b : Type} (f : a → b) (x : Except e1 a) (e : e1)
    (h : x.map f = .error e) : x = .error e := by
  cases x
  · simpa [Except.map] using h
  · simp [Except.map] at h

/-- The regression stage can only fail with the `math domain error` of
`math.log` or with `ZeroDivisionError` — never with the
ascending-order `ValueError`. -/
theorem duaneModel_error_cases (ft : List ℚ) (ttt : Option ℚ) (e : CalcError)
    (h : duaneModel ft ttt = .error e) :
    e = .valueError mathDomainMsg ∨ e = .zeroDivision := by
  simp only [duaneModel] at h
  split at h
  · exact Or.inl ((Except.error.injEq _ _).mp h).symm
  · split at h
    · exact Or.inr ((Except.error.injEq _ _).mp h).symm
    · exact absurd h (by simp)

/-- The prediction stage can only fail with a `KeyError` on the
`z`-value table or the `math domain error` of `math.log`. -/
theorem predictMtbf_error_cases (t : ℚ) (p : DuaneParams) (cl : ℕ) (e : CalcError)
    (h : predictMtbf t p cl = .error e) :
    e = .keyError (toString cl) ∨ e = .valueError mathDomainMsg := by
  simp only [predictMtbf] at h
  split at h
  · exact Or.inl ((Except.error.injEq _ _).mp h).symm
  · split at h
    · exact Or.inr ((Except.error.injEq _ _).mp h).symm
    · exact absurd h (by simp)

/-- Every error the post-check pipeline can produce. -/
theorem duaneAfterChecks_error_cases (ft : List ℚ) (tt : Option ℚ) (cl : ℕ)
    (ttt : Option ℚ) (e : CalcError) (h : duaneAfterChecks ft tt cl ttt = .error e) :
    e = .valueError mathDomainMsg ∨ e = .zeroDivision ∨ e = .keyError (toString cl) := by
  simp only [duaneAfterChecks] at h
  split at h
  · rename_i e0 heq
    rcases duaneModel_error_cases ft ttt e0 heq with h1 | h1 <;>
      rw [((Except.error.injEq _ _).mp h).symm, h1]
    · exact Or.inl rfl
    · exact Or.inr (Or.inl rfl)
  · rename_i prm cum fn fitv td heq
    split at h
    · rename_i e0 heq2
      have he0 : e0 = .keyError (toString cl) ∨ e0 = .valueError mathDomainMsg := by
        split at heq2
        · split at heq2
          · exact predictMtbf_error_cases _ prm cl e0 (exceptMap_eq_error _ _ _ heq2)
          · simp at heq2
        · simp at heq2
      rw [((Except.error.injEq _ _).mp h).symm]
      rcases he0 with h1 | h1 <;> rw [h1]
      · exact Or.inr (Or.inr rfl)
      · exact Or.inl rfl
    · rename_i tp heq2
      split at h
      · rename_i e0 heq3
        rw [((Except.error.injEq _ _).mp h).symm]
        rcases predictMtbf_error_cases _ _ _ _ heq3 with h1 | h1 <;> rw [h1]
        · exact Or.inr (Or.inr rfl)
        · exact Or.inl rfl
      · exact absurd h (by simp)

/-- The post-check pipeline never produces the ascending-order
rejection. -/
theorem duaneAfterChecks_ne_ordering (ft : List ℚ) (tt : Option ℚ) (cl : ℕ)
    (ttt : Option ℚ) : duaneAfterChecks ft tt cl ttt ≠ .error (.valueError orderingMsg) := by
  intro h
  rcases duaneAfterChecks_error_cases ft tt cl ttt _ h with h1 | h1 | h1
  · simp [orderingMsg, mathDomainMsg] at h1
  · simp at h1
  · simp at h1

/-- C9: the Duane calculator is order-insensitive: two failure-times
strings parsing to permutations of each other yield identical results
(the list is sorted ascending before anything else), and an input
parsing to at least two distinct positive values is never rejected for
ordering — the computation proceeds on the ascending sort. -/
theorem duane_permutation_invariant :
    (∀ (s₁ s₂ : String) (l₁ l₂ : List ℚ) (tt : Option ℚ) (cl : ℕ) (ttt : Option ℚ),
        parseFailureTimes s₁ = some l₁ → parseFailureTimes s₂ = some l₂ → l₁.Perm l₂ →
        duaneCalc s₁ tt cl ttt = duaneCalc s₂ tt cl ttt) ∧
    (∀ (s : String) (l : List ℚ) (tt : Option ℚ) (cl : ℕ) (ttt : Option ℚ),
        parseFailureTimes s = some l → 2 ≤ l.length → l.Nodup → (∀ x ∈ l, 0 < x) →
        duaneCalc s tt cl ttt ≠ .error (.valueError orderingMsg) ∧
        duaneCalc s tt cl ttt = duaneAfterChecks (sortQ l) tt cl ttt) := by
  constructor
  · intro s₁ s₂ l₁ l₂ tt cl ttt h1 h2 hperm
    have hsort : sortQ l₁ = sortQ l₂ :=
      List.eq_of_perm_of_sorted ((sortQ_perm l₁).trans (hperm.trans (sortQ_perm l₂).symm))
        (sortQ_sorted l₁) (sortQ_sorted l₂)
    simp only [duaneCalc, h1, h2, hsort]
  · intro s l tt cl ttt hp hlen hnd hpos
    have hchain := sortQ_chain_of_nodup l hnd
    have hlen2 : ¬ (sortQ l).length < 2 := by
      rw [(sortQ_perm l).length_eq]; omega
    have hcalc : duaneCalc s tt cl ttt = duaneAfterChecks (sortQ l) tt cl ttt := by
      simp only [duaneCalc, hp]
      rw [if_neg hlen2, if_neg (not_not.mpr hchain)]
    exact ⟨hcalc ▸ duaneAfterChecks_ne_ordering _ _ _ _, hcalc⟩

/-- C10: a failure-times input parsing to at least two values with a
duplicate is rejected with the strict-ascending `ValueError` (the
duplicate survives the sort as an adjacent non-increasing pair), and
conversely any input passing that check hands the regression a
strictly increasing sorted list. -/
theorem duane_duplicates_rejected :
    (∀ (s : String) (l : List ℚ) (tt : Option ℚ) (cl : ℕ) (ttt : Option ℚ),
        parseFailureTimes s = some l → 2 ≤ l.length → ¬ l.Nodup →
        duaneCalc s tt cl ttt = .error (.valueError orderingMsg)) ∧
    (∀ (s : String) (l : List ℚ) (tt : Option ℚ) (cl : ℕ) (ttt : Option ℚ),
        parseFailureTimes s = some l → 2 ≤ l.length →
        duaneCalc s tt cl ttt ≠ .error (.valueError orderingMsg) →
        List.Chain' (· < ·) (sortQ l)) := by
  constructor
  · intro s l tt cl ttt hp hlen hnd
    have hchain := sortQ_not_chain_of_dup l hnd
    simp only [duaneCalc, hp]
    rw [if_neg (by rw [(sortQ_perm l).length_eq]; omega), if_pos hchain]
  · intro s l tt cl ttt hp hlen hne
    by_contra hc
    apply hne
    simp only [duaneCalc, hp]
    rw [if_neg (by rw [(sortQ_perm l).length_eq]; omega), if_pos hc]

/-- Closed witness for the permutation-invariance part of the C9
theorem: `"3,7"` and `"7,3"` give identical results. -/
theorem duane_permutation_invariant_witness :
    duaneCalc "3,7" none 95 none = duaneCalc "7,3" none 95 none :=
  duane_permutation_invariant.1 "3,7" "7,3" [3, 7] [7, 3] none 95 none
    (by simp [parseFailureTimes, splitOnComma, trimList, parseFloatCore, parseTokens])
    (by simp [parseFailureTimes, splitOnComma, trimList, parseFloatCore, parseTokens])
    (List.Perm.swap 7 3 [])

/-- Closed witness for the duplicate-rejection part of the C10
theorem: `"5,5"` is rejected with the strict-ascending message. -/
theorem duane_duplicates_rejected_witness :
    duaneCalc "5,5" none 95 none = .error (.valueError orderingMsg) :=
  duane_duplicates_rejected.1 "5,5" [5, 5] none 95 none
    (by simp [parseFailureTimes, splitOnComma, trimList, parseFloatCore, parseTokens])
    (by norm_num)
    (by simp)

/-- C7: supplying `num_failures = 0` and `test_time > 0` takes the
exact chi-square branch (never the approximate one), and the zero-
failure case yields `mtbf_upper = +infinity`, `failure_rate_lower = 0`
and `mtbf_lower = 2*test_time / chi2ppf(1 − α/2, 2)` with
`α = 1 − confidence/100` (the published bound carries the output's
2-decimal rounding). -/
theorem mtbf_zero_failures_exact_interval :
    ∀ (chi2 : ℚ → ℕ → ℚ) (mexp : ℚ → ℚ) (validated : List (String × Value)) (T : ℚ)
      (r : MTBFResults),
      getInt? (validated.lookup "num_failures") = some 0 →
      getFloat? (validated.lookup "test_time") = some T → 0 < T →
      mtbfCompute chi2 mexp validated = .ok r →
      r.analysis = .precise (preciseFromTestData chi2 0 T r.confidence_level) ∧
      (preciseFromTestData chi2 0 T r.confidence_level).mtbf_ci_upper = .inf ∧
      (preciseFromTestData chi2 0 T r.confidence_level).fr_ci_lower = 0 ∧
      (preciseFromTestData chi2 0 T r.confidence_level).mtbf_ci_lower =
        pyRound (2 * T / chi2 (1 - (100 - (r.confidence_level : ℚ)) / 100 / 2) 2) 2 := by
  intro chi2 mexp validated T r hnf htt hTpos hok
  rcases hfr : validated.lookup "failure_rate" with _ | v
  · rw [mtbfCompute, hfr] at hok; exact absurd hok (by simp)
  rcases v with q | n | b | s
  all_goals rw [mtbfCompute, hfr] at hok
  · rcases hcl : validated.lookup "confidence_level" with _ | clv
    · simp only [hcl] at hok; exact absurd hok (by simp)
    simp only [hcl] at hok
    rcases hpi : pyIntOfValue clv with _ | clz
    · simp only [hpi] at hok; exact absurd hok (by simp)
    simp only [hpi] at hok
    rw [hnf, htt] at hok
    simp only [mtbfConfIntervals] at hok
    rw [if_pos hTpos] at hok
    simp only [Except.map, Except.ok.injEq] at hok
    subst hok
    refine ⟨by simp, ?_, ?_, ?_⟩
    · simp [preciseFromTestData, PyF.round]
    · simp only [preciseFromTestData]
      norm_num [pyRound, roundHalfEven]
    · simp [preciseFromTestData]
  · exact absurd hok (by simp)
  · exact absurd hok (by simp)
  · exact absurd hok (by simp)

/-- The success record of the C7 witness inputs, under the dummy
instantiation `chi2 = fun _ _ => 7`. -/
def mtbfPreciseRecord : MTBFResults :=
  { mtbf_hours := .fin (pyRound (1 / (1 / 10000 : ℚ)) 2)
    mtbf_years := .fin (pyRound (1 / (1 / 10000 : ℚ) / (365.25 * 24)) 4)
    failure_rate := 1 / 10000
    confidence_level := 95
    reliability := none
    analysis := .precise (preciseFromTestData (fun _ _ => 7) 0 10000 95) }

/-- Closed witness for `mtbf_zero_failures_exact_interval`, at
`failure_rate = 0.0001`, confidence `"95"`, `num_failures = 0`,
`test_time = 10000`. -/
theorem mtbf_zero_failures_exact_interval_witness :
    mtbfPreciseRecord.analysis =
      .precise (preciseFromTestData (fun _ _ => 7) 0 10000 mtbfPreciseRecord.confidence_level) ∧
    (preciseFromTestData (fun _ _ => 7) 0 10000 mtbfPreciseRecord.confidence_level).mtbf_ci_upper =
      .inf ∧
    (preciseFromTestData (fun _ _ => 7) 0 10000 mtbfPreciseRecord.confidence_level).fr_ci_lower =
      0 ∧
    (preciseFromTestData (fun _ _ => 7) 0 10000 mtbfPreciseRecord.confidence_level).mtbf_ci_lower =
      pyRound (2 * 10000 / (fun (_ : ℚ) (_ : ℕ) => (7 : ℚ))
        (1 - (100 - (mtbfPreciseRecord.confidence_level : ℚ)) / 100 / 2) 2) 2 :=
  mtbf_zero_failures_exact_interval (fun _ _ => 7) (fun q => q)
    [("failure_rate", .vfloat (1 / 10000)), ("confidence_level", .vstr "95"),
     ("num_failures", .vint 0), ("test_time", .vfloat 10000)] 10000 mtbfPreciseRecord
    rfl rfl (by norm_num)
    (by
      simp [mtbfCompute, List.lookup, getFloat?, getInt?, pyIntOfValue, parseIntZ_95,
        mtbfConfIntervals, Except.map, PyF.round, PyF.divC, mtbfPreciseRecord])
